import Mathlib

/-!
Verification of the `gestione_documentale` schema (src/gestione_documentale.sql).

The SQL core is embedded shallowly: every table is a list of rows, every
stored procedure and trigger is a Lean function on the database state, and
MySQL's FOREIGN KEY actions (RESTRICT / SET NULL) are made explicit in the
delete operations.  Monetary/decimal storage: `server.spazio_usato_gb` and
`server.capacita_totale_gb` are `DECIMAL(10,2)`, modelled as a natural number
of hundredths of GB (centi-GB); the value MySQL stores is the sum of bytes
divided by 1024³ and rounded half away from zero to two decimals.

Columns that no procedure, trigger or constraint of the script reads
(timestamps, free-text descriptions, passwords, paths, checksums, the
`sessioni` table) are omitted; rows never carry SQL NULL in a modelled
column except where the schema makes the column nullable and some statement
reads it (`documenti.dimensione_bytes`, `documenti.id_utente_modifica`,
`log_attivita.*`).
-/

namespace GestioneDocumentale

/-- `documenti.stato ENUM('bozza', 'attivo', 'archiviato', 'eliminato')`. -/
inductive Stato where
  | bozza
  | attivo
  | archiviato
  | eliminato
deriving DecidableEq

/-- `log_attivita.azione ENUM(...)`: the ten recognised action kinds. -/
inductive Azione where
  | login
  | logout
  | visualizza
  | crea
  | modifica
  | elimina
  | download
  | upload
  | ripristina
  | gestione_utenti
deriving DecidableEq

/-- Errors a statement can raise: a FOREIGN KEY violation (MySQL 1451/1452),
an invalid value for an ENUM column in strict mode, or `SELECT ... INTO`
matching more than one row (MySQL 1172). -/
inductive Err where
  | InvalidReference
  | InvalidAzione
  | TooManyRows
deriving DecidableEq

/-- A row of `ruoli`. -/
structure Ruolo where
  id_ruolo : Nat
  nome_ruolo : String
deriving DecidableEq

/-- A row of `permessi`: five capability booleans tied to a role. -/
structure Permesso where
  id_permesso : Nat
  id_ruolo : Nat
  puo_visualizzare : Bool
  puo_modificare : Bool
  puo_aggiungere : Bool
  puo_rimuovere : Bool
  gestisce_utenti : Bool
deriving DecidableEq

/-- A row of `utenti`. -/
structure Utente where
  id_utente : Nat
  email : String
  nome : String
  cognome : String
  id_ruolo : Nat
  attivo : Bool
deriving DecidableEq

/-- A row of `server`: capacities in hundredths of GB (`DECIMAL(10,2)`). -/
structure Server where
  id_server : Nat
  nome_server : String
  capacita_totale_centi : Nat
  spazio_usato_centi : Nat
deriving DecidableEq

/-- A row of `tipi_documento`. -/
structure TipoDocumento where
  id_tipo : Nat
  nome_tipo : String
  attivo : Bool
deriving DecidableEq

/-- A row of `documenti`.  `dimensione_bytes` and `id_utente_modifica` are
nullable in the schema and are read by triggers / FK actions, so they are
`Option`s here. -/
structure Documento where
  id_documento : Nat
  nome_file : String
  dimensione_bytes : Option Nat
  id_tipo : Nat
  id_server : Nat
  id_utente_creatore : Nat
  id_utente_modifica : Option Nat
  stato : Stato
deriving DecidableEq

/-- A row of `log_attivita`.  The two JSON snapshot columns are kept as
opaque nullable strings. -/
structure LogAttivita where
  id_log : Nat
  id_utente : Option Nat
  id_documento : Option Nat
  azione : Azione
  descrizione : String
  indirizzo_ip : Option String
  user_agent : Option String
  dati_precedenti : Option String
  dati_nuovi : Option String
deriving DecidableEq

/-- The database state: one list of rows per table. -/
structure DB where
  ruoli : List Ruolo
  permessi : List Permesso
  utenti : List Utente
  server : List Server
  tipi_documento : List TipoDocumento
  documenti : List Documento
  log_attivita : List LogAttivita
deriving DecidableEq

/-- `SUM(d.dimensione_bytes)` over a list of document rows restricted to
`id_server = sid AND stato != 'eliminato'`; SQL `SUM` skips NULL sizes. -/
def sommaLista (l : List Documento) (sid : Nat) : Nat :=
  ((l.filter fun d => d.id_server == sid && d.stato != Stato.eliminato).map
    fun d => d.dimensione_bytes.getD 0).sum

/-- The inner SELECT of `sp_aggiorna_spazio_server`:
`COALESCE(SUM(dimensione_bytes), 0)` over the non-deleted documents of a
server (still in bytes). -/
def sommaBytesNonEliminati (db : DB) (sid : Nat) : Nat :=
  sommaLista db.documenti sid

/-- Byte count divided by `1024/1024/1024` and stored into the
`DECIMAL(10,2)` column `spazio_usato_gb`: hundredths of GB, rounded half
away from zero (for a nonnegative value, half up). -/
def bytesToCentiGb (s : Nat) : Nat :=
  (100 * s + 2 ^ 29) / 2 ^ 30

/-- `sp_aggiorna_spazio_server`: `UPDATE server SET spazio_usato_gb = (SELECT
COALESCE(SUM(...)/1024/1024/1024, 0) FROM documenti WHERE id_server = p AND
stato != 'eliminato') WHERE id_server = p`. -/
def sp_aggiorna_spazio_server (db : DB) (sid : Nat) : DB :=
  { db with
    server := db.server.map fun s =>
      if s.id_server == sid then
        { s with spazio_usato_centi := bytesToCentiGb (sommaBytesNonEliminati db sid) }
      else s }

/-- SQL three-valued `!=` on a nullable column: a comparison involving NULL
is not TRUE, so the trigger's IF does not fire on it. -/
def sqlNeq (a b : Option Nat) : Bool :=
  match a, b with
  | some x, some y => x != y
  | _, _ => false

/-- The IF guard of `tr_documento_update_spazio`:
`OLD.id_server != NEW.id_server OR OLD.dimensione_bytes != NEW.dimensione_bytes`. -/
def triggerScatta (old new : Documento) : Bool :=
  old.id_server != new.id_server || sqlNeq old.dimensione_bytes new.dimensione_bytes

/-- FK parents required by an inserted `documenti` row: `id_tipo`,
`id_server`, `id_utente_creatore` must exist; `id_utente_modifica` may be
NULL, otherwise must exist. -/
def fkParentsOk (db : DB) (d : Documento) : Bool :=
  (db.tipi_documento.any fun t => t.id_tipo == d.id_tipo) &&
  (db.server.any fun s => s.id_server == d.id_server) &&
  (db.utenti.any fun u => u.id_utente == d.id_utente_creatore) &&
  (match d.id_utente_modifica with
   | none => true
   | some m => db.utenti.any fun u => u.id_utente == m)

/-- FK checks InnoDB performs on UPDATE: only on the FK columns whose value
changed. -/
def fkCambiatiOk (db : DB) (old new : Documento) : Bool :=
  (new.id_tipo == old.id_tipo || db.tipi_documento.any fun t => t.id_tipo == new.id_tipo) &&
  (new.id_server == old.id_server || db.server.any fun s => s.id_server == new.id_server) &&
  (new.id_utente_creatore == old.id_utente_creatore ||
    db.utenti.any fun u => u.id_utente == new.id_utente_creatore) &&
  (new.id_utente_modifica == old.id_utente_modifica ||
    match new.id_utente_modifica with
    | none => true
    | some m => db.utenti.any fun u => u.id_utente == m)

/-- `INSERT INTO documenti`: FK checks, then the row is appended and
`tr_documento_insert_spazio` calls `sp_aggiorna_spazio_server(NEW.id_server)`. -/
def insertDocumento (db : DB) (d : Documento) : Except Err DB :=
  if fkParentsOk db d then
    Except.ok (sp_aggiorna_spazio_server
      { db with documenti := db.documenti ++ [d] } d.id_server)
  else Except.error Err.InvalidReference

/-- `UPDATE documenti SET ... WHERE id_documento = did` (at most one row: PK),
followed by `tr_documento_update_spazio`, which recalculates the old and new
server only when its IF guard fires. -/
def updateDocumento (db : DB) (did : Nat) (f : Documento → Documento) : Except Err DB :=
  match db.documenti.find? fun x => x.id_documento == did with
  | none => Except.ok db
  | some old =>
    let new := f old
    if fkCambiatiOk db old new then
      let db1 := { db with
        documenti := db.documenti.map fun x => if x.id_documento == did then f x else x }
      Except.ok (if triggerScatta old new then
          sp_aggiorna_spazio_server (sp_aggiorna_spazio_server db1 old.id_server) new.id_server
        else db1)
    else Except.error Err.InvalidReference

/-- `DELETE FROM documenti WHERE id_documento = did`:
`log_attivita.id_documento` is `ON DELETE SET NULL`, then
`tr_documento_delete_spazio` recalculates `OLD.id_server`. -/
def deleteDocumento (db : DB) (did : Nat) : DB :=
  match db.documenti.find? fun x => x.id_documento == did with
  | none => db
  | some old =>
    sp_aggiorna_spazio_server
      { db with
        documenti := db.documenti.filter fun x => x.id_documento != did,
        log_attivita := db.log_attivita.map fun l =>
          if l.id_documento == some did then { l with id_documento := none } else l }
      old.id_server

/-- `DELETE FROM tipi_documento WHERE id_tipo = tid`:
`documenti.id_tipo` is `ON DELETE RESTRICT`, so any referencing document row
(whatever its `stato`) aborts the delete with a FK error. -/
def deleteTipoDocumento (db : DB) (tid : Nat) : Except Err DB :=
  if db.documenti.any fun d => d.id_tipo == tid then Except.error Err.InvalidReference
  else Except.ok { db with tipi_documento := db.tipi_documento.filter fun t => t.id_tipo != tid }

/-- `DELETE FROM server WHERE id_server = sid`: `documenti.id_server` is
`ON DELETE RESTRICT`. -/
def deleteServer (db : DB) (sid : Nat) : Except Err DB :=
  if db.documenti.any fun d => d.id_server == sid then Except.error Err.InvalidReference
  else Except.ok { db with server := db.server.filter fun s => s.id_server != sid }

/-- `DELETE FROM utenti WHERE id_utente = uid`:
`documenti.id_utente_creatore` is `ON DELETE RESTRICT`;
`documenti.id_utente_modifica` and `log_attivita.id_utente` are
`ON DELETE SET NULL` (`sessioni` would cascade; it is not modelled). -/
def deleteUtente (db : DB) (uid : Nat) : Except Err DB :=
  if db.documenti.any fun d => d.id_utente_creatore == uid then
    Except.error Err.InvalidReference
  else Except.ok { db with
    utenti := db.utenti.filter fun u => u.id_utente != uid,
    documenti := db.documenti.map fun d =>
      if d.id_utente_modifica == some uid then { d with id_utente_modifica := none } else d,
    log_attivita := db.log_attivita.map fun l =>
      if l.id_utente == some uid then { l with id_utente := none } else l }

/-- The CASE expression of `sp_verifica_permesso`: map a capability name to
the permission column, `ELSE FALSE`. -/
def capField (p : Permesso) (cap : String) : Bool :=
  if cap = "visualizza" then p.puo_visualizzare
  else if cap = "modifica" then p.puo_modificare
  else if cap = "aggiungi" then p.puo_aggiungere
  else if cap = "rimuovi" then p.puo_rimuovere
  else if cap = "gestisci_utenti" then p.gestisce_utenti
  else false

/-- The row set of `FROM utenti u JOIN permessi p ON u.id_ruolo = p.id_ruolo
WHERE u.id_utente = uid AND u.attivo = TRUE`. -/
def righePermesso (db : DB) (uid : Nat) : List Permesso :=
  (db.utenti.filter fun u => u.id_utente == uid && u.attivo).flatMap fun u =>
    db.permessi.filter fun p => p.id_ruolo == u.id_ruolo

/-- `sp_verifica_permesso`: `SELECT CASE ... INTO v_permesso` — zero joined
rows leave the variable at its `DEFAULT FALSE`, more than one row is a MySQL
error (1172, modelled as `none`) — then `p_autorizzato := COALESCE(v, FALSE)`. -/
def sp_verifica_permesso (db : DB) (uid : Nat) (cap : String) : Option Bool :=
  match righePermesso db uid with
  | [] => some false
  | [p] => some (capField p cap)
  | _ :: _ :: _ => none

/-- The `p_azione VARCHAR(20)` argument of `sp_registra_log` must be a valid
member of the `azione` ENUM to be inserted. -/
def azioneOfString (s : String) : Option Azione :=
  if s = "login" then some Azione.login
  else if s = "logout" then some Azione.logout
  else if s = "visualizza" then some Azione.visualizza
  else if s = "crea" then some Azione.crea
  else if s = "modifica" then some Azione.modifica
  else if s = "elimina" then some Azione.elimina
  else if s = "download" then some Azione.download
  else if s = "upload" then some Azione.upload
  else if s = "ripristina" then some Azione.ripristina
  else if s = "gestione_utenti" then some Azione.gestione_utenti
  else none

/-- `AUTO_INCREMENT` value for `log_attivita.id_log`. -/
def nextIdLog (db : DB) : Nat :=
  (db.log_attivita.map fun l => l.id_log).foldr max 0 + 1

/-- `sp_registra_log`: `INSERT INTO log_attivita (id_utente, id_documento,
azione, descrizione, indirizzo_ip, user_agent) VALUES (...)`.  The column
list omits `dati_precedenti` and `dati_nuovi`, so both snapshots are
inserted as NULL.  FK parents (`id_utente`, `id_documento`) must exist when
non-NULL. -/
def sp_registra_log (db : DB) (uid did : Option Nat) (az descr : String)
    (ip ua : Option String) : Except Err DB :=
  match azioneOfString az with
  | none => Except.error Err.InvalidAzione
  | some a =>
    if (match uid with
        | none => true
        | some u => db.utenti.any fun x => x.id_utente == u) &&
       (match did with
        | none => true
        | some d => db.documenti.any fun x => x.id_documento == d) then
      Except.ok { db with
        log_attivita := db.log_attivita ++
          [{ id_log := nextIdLog db, id_utente := uid, id_documento := did, azione := a,
             descrizione := descr, indirizzo_ip := ip, user_agent := ua,
             dati_precedenti := none, dati_nuovi := none }] }
    else Except.error Err.InvalidReference

/-- The stored `spazio_usato_gb` (in centi-GB) of the server row `sid`. -/
def usedOf (db : DB) (sid : Nat) : Option Nat :=
  (db.server.find? fun s => s.id_server == sid).map fun s => s.spazio_usato_centi

/-- Seed rows of `ruoli` (`INSERT INTO ruoli ...`). -/
def ruoliSeed : List Ruolo :=
  [⟨1, "user"⟩, ⟨2, "admin"⟩, ⟨3, "manager"⟩]

/-- Seed rows of `permessi` (`INSERT INTO permessi ...`). -/
def permessiSeed : List Permesso :=
  [⟨1, 1, true, false, false, false, false⟩,
   ⟨2, 2, true, true, true, true, false⟩,
   ⟨3, 3, true, true, true, true, true⟩]

/-- Seed rows of `utenti` (`INSERT INTO utenti ...`), ids by AUTO_INCREMENT. -/
def utentiSeed : List Utente :=
  [⟨1, "m.rossi@azienda.it", "Marco", "Rossi", 3, true⟩,
   ⟨2, "g.bianchi@azienda.it", "Giuseppe", "Bianchi", 2, true⟩,
   ⟨3, "a.ferrari@azienda.it", "Anna", "Ferrari", 2, true⟩,
   ⟨4, "l.verdi@azienda.it", "Luca", "Verdi", 1, true⟩,
   ⟨5, "s.romano@azienda.it", "Sara", "Romano", 1, true⟩]

/-- Seed row of `server` (capacity 1000.00 GB, used 0). -/
def serverSeed : List Server :=
  [⟨1, "Server Principale", 100000, 0⟩]

/-- Seed rows of `tipi_documento`. -/
def tipiSeed : List TipoDocumento :=
  [⟨1, "Fatture", true⟩, ⟨2, "Contratti", true⟩, ⟨3, "Preventivi", true⟩,
   ⟨4, "Acquisti", true⟩, ⟨5, "Bollettini", true⟩, ⟨6, "Excel", true⟩,
   ⟨7, "Report", true⟩, ⟨8, "Allegati", true⟩, ⟨9, "DDT", true⟩,
   ⟨10, "Note di Credito", true⟩]

/-- The database right after the script's seed INSERTs. -/
def seedDB : DB :=
  ⟨ruoliSeed, permessiSeed, utentiSeed, serverSeed, tipiSeed, [], []⟩

/-- A 1 GB document on the seed server, used to exercise the triggers. -/
def docC1 : Documento :=
  ⟨1, "contratto.pdf", some (2 ^ 30), 1, 1, 1, none, Stato.attivo⟩

/-- Seed database after inserting `docC1`. -/
def dbC1a : DB :=
  (insertDocumento seedDB docC1).toOption.getD seedDB

/-- `dbC1a` after the soft delete `UPDATE documenti SET stato = 'eliminato'`. -/
def dbC1b : DB :=
  (updateDocumento dbC1a 1 fun d => { d with stato := Stato.eliminato }).toOption.getD seedDB

/-- C1: the used-space invariant is violated by the code.  After inserting a
1 GB document the figure is 100 centi-GB (1.00 GB); a committed soft delete
(stato set to 'eliminato', `id_server` and `dimensione_bytes` unchanged)
leaves the figure at 100 although the sum over non-deleted documents of the
server is now 0: `tr_documento_update_spazio` fires only when `id_server` or
`dimensione_bytes` changes, so no trigger recalculates the space. -/
theorem spazioUsato_stale_after_soft_delete :
    (insertDocumento seedDB docC1).toOption = some dbC1a ∧
    (updateDocumento dbC1a 1 fun d => { d with stato := Stato.eliminato }).toOption =
      some dbC1b ∧
    usedOf dbC1a 1 = some 100 ∧
    usedOf dbC1b 1 = some 100 ∧
    sommaBytesNonEliminati dbC1b 1 = 0 ∧
    bytesToCentiGb (sommaBytesNonEliminati dbC1b 1) ≠ 100 := by
  exact ⟨rfl, rfl, rfl, rfl, rfl, by decide⟩

/-- A 3 GB document on the seed server. -/
def docC2 : Documento :=
  ⟨1, "nota.pdf", some (3 * 2 ^ 30), 1, 1, 1, none, Stato.attivo⟩

/-- Seed database after inserting `docC2`. -/
def dbC2a : DB :=
  (insertDocumento seedDB docC2).toOption.getD seedDB

/-- `dbC2a` after the soft delete of document 1. -/
def dbC2b : DB :=
  (updateDocumento dbC2a 1 fun d => { d with stato := Stato.eliminato }).toOption.getD seedDB

/-- C2: soft-deleting a document does not decrease its server's used-space
figure at all (it stays at 300 centi-GB instead of dropping by the 3 GB size
of the document), because the update trigger's guard ignores `stato`
changes; and a second identical soft delete is accepted as a no-op (nothing
in the script validates lifecycle transitions), again with no decrement. -/
theorem soft_delete_no_decrement :
    (insertDocumento seedDB docC2).toOption = some dbC2a ∧
    (updateDocumento dbC2a 1 fun d => { d with stato := Stato.eliminato }).toOption =
      some dbC2b ∧
    usedOf dbC2a 1 = some 300 ∧
    usedOf dbC2b 1 = some 300 ∧
    (updateDocumento dbC2b 1 fun d => { d with stato := Stato.eliminato }).toOption =
      some dbC2b := by
  exact ⟨rfl, rfl, rfl, rfl, rfl⟩

/-- The storage location of the C9 scenario: capacity 10.00 GB, used 0. -/
def dbC9s : DB :=
  { seedDB with server := [⟨1, "Server Principale", 1000, 0⟩] }

/-- The document of the C9 scenario: 1,000,000 bytes. -/
def docC9 : Documento :=
  ⟨1, "scenario.pdf", some 1000000, 1, 1, 1, none, Stato.attivo⟩

/-- C9 scenario after the create. -/
def dbC9a : DB :=
  (insertDocumento dbC9s docC9).toOption.getD seedDB

/-- C9 scenario after the soft delete. -/
def dbC9b : DB :=
  (updateDocumento dbC9a 1 fun d => { d with stato := Stato.eliminato }).toOption.getD seedDB

/-- C9 scenario after the restore. -/
def dbC9c : DB :=
  (updateDocumento dbC9b 1 fun d => { d with stato := Stato.attivo }).toOption.getD seedDB

/-- C9 counterexample: creating the 1,000,000-byte document leaves the stored
used-space at 0 centi-GB, i.e. 0.00 GB — not approximately 0.001 GB: the
`DECIMAL(10,2)` column rounds 1,000,000/1024³ ≈ 0.00093 GB to 0.00, so the
stored figure is not within 0.0005 GB of 0.001 GB. -/
theorem scenario_used_is_zero_not_milli :
    (insertDocumento dbC9s docC9).toOption = some dbC9a ∧
    usedOf dbC9a 1 = some 0 ∧
    ¬ |(0 : ℚ) / 100 - 1 / 1000| ≤ 1 / 2000 := by
  refine ⟨rfl, rfl, ?_⟩
  rw [show (0 : ℚ) / 100 - 1 / 1000 = -(1 / 1000) by norm_num, abs_neg,
    abs_of_pos (by norm_num)]
  norm_num

/-- C9 amended: through create, soft delete and restore of the
1,000,000-byte document the stored used-space figure is 0.00 GB at every
step — the create's rounded sum is 0.00 (`DECIMAL(10,2)`), and the soft
delete and restore change only `stato`, which the update trigger ignores, so
they recalculate nothing. -/
theorem scenario_decimal_storage :
    (insertDocumento dbC9s docC9).toOption = some dbC9a ∧
    (updateDocumento dbC9a 1 fun d => { d with stato := Stato.eliminato }).toOption =
      some dbC9b ∧
    (updateDocumento dbC9b 1 fun d => { d with stato := Stato.attivo }).toOption =
      some dbC9c ∧
    usedOf dbC9a 1 = some 0 ∧
    usedOf dbC9b 1 = some 0 ∧
    usedOf dbC9c 1 = some 0 := by
  exact ⟨rfl, rfl, rfl, rfl, rfl, rfl⟩

/-- C4: under the seeded roles, permissions and users, every active user
whose role is named `user` is denied `aggiungi`, `modifica` and `rimuovi`;
every active `manager` is granted `gestisci_utenti`; every active `admin` is
denied `gestisci_utenti`. -/
theorem seed_permessi_decisions :
    (seedDB.utenti.all fun u =>
      !u.attivo ||
      ((!(seedDB.ruoli.any fun r => r.id_ruolo == u.id_ruolo && r.nome_ruolo == "user") ||
         ((sp_verifica_permesso seedDB u.id_utente "aggiungi" == some false) &&
          (sp_verifica_permesso seedDB u.id_utente "modifica" == some false) &&
          (sp_verifica_permesso seedDB u.id_utente "rimuovi" == some false))) &&
       (!(seedDB.ruoli.any fun r => r.id_ruolo == u.id_ruolo && r.nome_ruolo == "manager") ||
         (sp_verifica_permesso seedDB u.id_utente "gestisci_utenti" == some true)) &&
       (!(seedDB.ruoli.any fun r => r.id_ruolo == u.id_ruolo && r.nome_ruolo == "admin") ||
         (sp_verifica_permesso seedDB u.id_utente "gestisci_utenti" == some false)))) = true := by
  decide

/-- C10: a user id matching no row of `utenti` makes `sp_verifica_permesso`
set its OUT parameter to FALSE for every capability name: the join yields no
row, `v_permesso` keeps its `DEFAULT FALSE`, and `COALESCE` returns FALSE. -/
theorem sp_verifica_permesso_unknown_user (db : DB) (uid : Nat) (cap : String)
    (h : ∀ u ∈ db.utenti, u.id_utente ≠ uid) :
    sp_verifica_permesso db uid cap = some false := by
  have hf : (db.utenti.filter fun u => u.id_utente == uid && u.attivo) = [] := by
    rw [List.filter_eq_nil_iff]
    intro u hu hcontra
    rw [Bool.and_eq_true] at hcontra
    exact h u hu (by simpa using hcontra.1)
  have hr : righePermesso db uid = [] := by
    rw [righePermesso, hf]
    rfl
  simp only [sp_verifica_permesso, hr]

/-- Witness for C10 at a concrete input: id 99 matches no seeded user. -/
theorem sp_verifica_permesso_unknown_user_witness :
    sp_verifica_permesso seedDB 99 "visualizza" = some false :=
  sp_verifica_permesso_unknown_user seedDB 99 "visualizza" (by decide)

/-- A document-type delete that went through. -/
def tipoRimosso (db : DB) (tid : Nat) : Prop :=
  ∃ db', deleteTipoDocumento db tid = Except.ok db'

/-- A storage-location delete that went through. -/
def serverRimosso (db : DB) (sid : Nat) : Prop :=
  ∃ db', deleteServer db sid = Except.ok db'

/-- C6: deleting a document type (or a server) referenced by at least one
non-deleted document fails with the RESTRICT foreign-key error; deleting one
referenced by zero documents succeeds. -/
theorem delete_tipo_server_restrict (db : DB) (tid sid : Nat) :
    ((∃ d ∈ db.documenti, d.id_tipo = tid ∧ d.stato ≠ Stato.eliminato) →
      deleteTipoDocumento db tid = Except.error Err.InvalidReference) ∧
    ((∀ d ∈ db.documenti, d.id_tipo ≠ tid) → tipoRimosso db tid) ∧
    ((∃ d ∈ db.documenti, d.id_server = sid ∧ d.stato ≠ Stato.eliminato) →
      deleteServer db sid = Except.error Err.InvalidReference) ∧
    ((∀ d ∈ db.documenti, d.id_server ≠ sid) → serverRimosso db sid) := by
  refine ⟨?_, ?_, ?_, ?_⟩
  · rintro ⟨d, hd, h1, -⟩
    simp only [deleteTipoDocumento]
    rw [if_pos (List.any_eq_true.mpr ⟨d, hd, by simpa using h1⟩)]
  · intro h
    have hc : ¬ ((db.documenti.any fun d => d.id_tipo == tid) = true) := by
      intro hcon
      obtain ⟨d, hd, hbeq⟩ := List.any_eq_true.mp hcon
      exact h d hd (by simpa using hbeq)
    exact ⟨_, by simp only [deleteTipoDocumento]; rw [if_neg hc]⟩
  · rintro ⟨d, hd, h1, -⟩
    simp only [deleteServer]
    rw [if_pos (List.any_eq_true.mpr ⟨d, hd, by simpa using h1⟩)]
  · intro h
    have hc : ¬ ((db.documenti.any fun d => d.id_server == sid) = true) := by
      intro hcon
      obtain ⟨d, hd, hbeq⟩ := List.any_eq_true.mp hcon
      exact h d hd (by simpa using hbeq)
    exact ⟨_, by simp only [deleteServer]; rw [if_neg hc]⟩

/-- A database with one active document of type 1 on server 1. -/
def dbC6 : DB :=
  { seedDB with documenti := [⟨1, "f.pdf", some 5, 1, 1, 1, none, Stato.attivo⟩] }

/-- Witness for C6: type 1 / server 1 are referenced and cannot be deleted;
type 2 / server 2 are unreferenced and can. -/
theorem delete_tipo_server_restrict_witness :
    deleteTipoDocumento dbC6 1 = Except.error Err.InvalidReference ∧
    tipoRimosso dbC6 2 ∧
    deleteServer dbC6 1 = Except.error Err.InvalidReference ∧
    serverRimosso dbC6 2 :=
  ⟨(delete_tipo_server_restrict dbC6 1 1).1 (by decide),
   (delete_tipo_server_restrict dbC6 2 1).2.1 (by decide),
   (delete_tipo_server_restrict dbC6 1 1).2.2.1 (by decide),
   (delete_tipo_server_restrict dbC6 1 2).2.2.2 (by decide)⟩

/-- A user delete that went through: the user row is gone and every document
that referenced the user as last-modifier now has that column NULL. -/
def utenteRimossoOk (db : DB) (uid : Nat) : Prop :=
  ∃ db', deleteUtente db uid = Except.ok db' ∧
    db'.documenti = db.documenti.map (fun d =>
      if d.id_utente_modifica == some uid then { d with id_utente_modifica := none }
      else d) ∧
    ∀ d ∈ db'.documenti, d.id_utente_modifica ≠ some uid

/-- C7: deleting a user referenced as creator of any document fails
(RESTRICT); deleting a user not referenced as creator succeeds, and every
document that referenced the user as last-modifier gets NULL there
(SET NULL). -/
theorem delete_utente_fk (db : DB) (uid : Nat) :
    ((∃ d ∈ db.documenti, d.id_utente_creatore = uid) →
      deleteUtente db uid = Except.error Err.InvalidReference) ∧
    ((∀ d ∈ db.documenti, d.id_utente_creatore ≠ uid) → utenteRimossoOk db uid) := by
  constructor
  · rintro ⟨d, hd, h1⟩
    simp only [deleteUtente]
    rw [if_pos (List.any_eq_true.mpr ⟨d, hd, by simpa using h1⟩)]
  · intro h
    have hc : ¬ ((db.documenti.any fun d => d.id_utente_creatore == uid) = true) := by
      intro hcon
      obtain ⟨d, hd, hbeq⟩ := List.any_eq_true.mp hcon
      exact h d hd (by simpa using hbeq)
    refine ⟨_, by simp only [deleteUtente]; rw [if_neg hc], rfl, ?_⟩
    intro d' hd'
    rw [List.mem_map] at hd'
    obtain ⟨x, -, rfl⟩ := hd'
    by_cases hb : (x.id_utente_modifica == some uid) = true
    · rw [if_pos hb]
      simp
    · rw [if_neg hb]
      simpa using hb

/-- A database with one document created by user 2 and last modified by
user 3. -/
def dbC7 : DB :=
  { seedDB with documenti := [⟨1, "g.pdf", some 5, 1, 1, 2, some 3, Stato.attivo⟩] }

/-- Witness for C7: user 2 (a creator) cannot be deleted; user 3 (only a
last-modifier) can, and the document's modifier column becomes NULL. -/
theorem delete_utente_fk_witness :
    deleteUtente dbC7 2 = Except.error Err.InvalidReference ∧ utenteRimossoOk dbC7 3 :=
  ⟨(delete_utente_fk dbC7 2).1 (by decide), (delete_utente_fk dbC7 3).2 (by decide)⟩

/-- What one call of the audit-logging procedure leaves behind. -/
def registraLogOk (db : DB) (uid did : Option Nat) (az : String) (db' : DB) : Prop :=
  ∃ e, db'.log_attivita = db.log_attivita ++ [e] ∧ azioneOfString az = some e.azione ∧
    e.id_utente = uid ∧ e.id_documento = did ∧
    e.dati_precedenti = none ∧ e.dati_nuovi = none

/-- C8 amended: every successful `sp_registra_log` call — the script's one
logging entry point, invoked once per create / modify / soft-delete /
restore per the spec — appends exactly one row to `log_attivita` whose
action kind is the requested one, but with both JSON snapshot columns NULL:
the procedure's INSERT column list omits `dati_precedenti` and `dati_nuovi`
and the procedure takes no snapshot parameters. -/
theorem sp_registra_log_appends (db : DB) (uid did : Option Nat) (az descr : String)
    (ip ua : Option String) (db' : DB)
    (h : sp_registra_log db uid did az descr ip ua = Except.ok db') :
    registraLogOk db uid did az db' := by
  cases haz : azioneOfString az with
  | none =>
    simp only [sp_registra_log, haz] at h
    exact absurd h (by simp)
  | some a =>
    simp only [sp_registra_log, haz] at h
    split at h
    · injection h with h2
      subst h2
      exact ⟨_, rfl, haz, rfl, rfl, rfl, rfl⟩
    · exact absurd h (by simp)

/-- Seed database after logging a 'crea' action for user 1. -/
def dbC8 : DB :=
  (sp_registra_log seedDB (some 1) none "crea" "caricamento documento" none
    none).toOption.getD seedDB

/-- Witness for C8's amended claim at a concrete call. -/
theorem sp_registra_log_appends_witness :
    registraLogOk seedDB (some 1) none "crea" dbC8 :=
  sp_registra_log_appends seedDB (some 1) none "crea" "caricamento documento" none none
    dbC8 rfl

/-- C8 counterexample: the entry logged for a create operation has NULL in
both snapshot columns, so the claimed non-null snapshot is false. -/
theorem sp_registra_log_null_snapshots :
    (sp_registra_log seedDB (some 1) none "crea" "caricamento documento" none
        none).toOption = some dbC8 ∧
    dbC8.log_attivita.map (fun l => (l.azione, l.dati_precedenti, l.dati_nuovi)) =
      [(Azione.crea, none, none)] :=
  ⟨rfl, rfl⟩

/-- A filter that pins a Nodup-projected key to one value keeps at most one
row. -/
theorem nodup_filter_length_le_one {α β : Type} (l : List α) (f : α → β)
    (h : (l.map f).Nodup) (p : α → Bool) (v : β) (hp : ∀ x, p x = true → f x = v) :
    (l.filter p).length ≤ 1 := by
  have hnd : ((l.filter p).map f).Nodup :=
    h.sublist ((List.filter_sublist l).map f)
  cases h' : l.filter p with
  | nil => simp
  | cons a t1 =>
    cases t1 with
    | nil => simp
    | cons b t2 =>
      exfalso
      have ha : p a = true := List.of_mem_filter (l := l) (by rw [h']; exact List.mem_cons_self _ _)
      have hb : p b = true := List.of_mem_filter (l := l)
        (by rw [h']; exact List.mem_cons_of_mem _ (List.mem_cons_self _ _))
      rw [h', List.map_cons, List.map_cons, hp a ha, hp b hb] at hnd
      exact (List.nodup_cons.mp hnd).1 (List.mem_cons_self _ _)

/-- Membership in the joined row set of `sp_verifica_permesso`. -/
theorem righePermesso_mem (db : DB) (uid : Nat) (p : Permesso) :
    p ∈ righePermesso db uid ↔
      ∃ u ∈ db.utenti, u.id_utente = uid ∧ u.attivo = true ∧
        p ∈ db.permessi ∧ p.id_ruolo = u.id_ruolo := by
  simp only [righePermesso, List.mem_flatMap, List.mem_filter, Bool.and_eq_true, beq_iff_eq]
  constructor
  · rintro ⟨u, ⟨hu, hid, hact⟩, hp, hrole⟩
    exact ⟨u, hu, hid, hact, hp, hrole⟩
  · rintro ⟨u, hu, hid, hact, hp, hrole⟩
    exact ⟨u, ⟨hu, hid, hact⟩, hp, hrole⟩

/-- With unique user ids (`PRIMARY KEY`) and at most one permission row per
role, the join of `sp_verifica_permesso` returns at most one row. -/
theorem righePermesso_length_le_one (db : DB) (uid : Nat)
    (hU : (db.utenti.map fun u => u.id_utente).Nodup)
    (hP : (db.permessi.map fun p => p.id_ruolo).Nodup) :
    (righePermesso db uid).length ≤ 1 := by
  have hu1 : (db.utenti.filter fun u => u.id_utente == uid && u.attivo).length ≤ 1 :=
    nodup_filter_length_le_one db.utenti _ hU _ uid (fun x hx => by
      rw [Bool.and_eq_true] at hx
      simpa using hx.1)
  cases h' : db.utenti.filter fun u => u.id_utente == uid && u.attivo with
  | nil => simp [righePermesso, h']
  | cons u t =>
    have ht : t = [] := by
      rw [h'] at hu1
      simpa using hu1
    subst ht
    have hflat : righePermesso db uid = db.permessi.filter fun p => p.id_ruolo == u.id_ruolo := by
      simp [righePermesso, h']
    rw [hflat]
    exact nodup_filter_length_le_one db.permessi _ hP _ u.id_ruolo (fun x hx => by simpa using hx)

/-- The full contract of the permission check for a user id and a capability
name: the OUT parameter is set (never NULL, never an error), it is TRUE
exactly when an active user with that id exists whose role's permission row
has the corresponding capability column TRUE, an unrecognised capability
name yields FALSE, and an inactive (or absent) user yields FALSE whatever
the role grants. -/
def verificaSpec (db : DB) (uid : Nat) (cap : String) : Prop :=
  ∃ b, sp_verifica_permesso db uid cap = some b ∧
    (b = true ↔ ∃ u ∈ db.utenti, u.id_utente = uid ∧ u.attivo = true ∧
      ∃ p ∈ db.permessi, p.id_ruolo = u.id_ruolo ∧ capField p cap = true) ∧
    (cap ∉ (["visualizza", "modifica", "aggiungi", "rimuovi", "gestisci_utenti"] :
      List String) → b = false) ∧
    ((∀ u ∈ db.utenti, u.id_utente = uid → u.attivo = false) → b = false)

/-- C3: `sp_verifica_permesso` satisfies its contract whenever user ids are
unique (the table's PRIMARY KEY) and each role has at most one permission
row (the spec's Role/Permission invariant; with duplicate permission rows
the procedure's `SELECT ... INTO` would instead raise error 1172). -/
theorem sp_verifica_permesso_spec (db : DB) (uid : Nat) (cap : String)
    (hU : (db.utenti.map fun u => u.id_utente).Nodup)
    (hP : (db.permessi.map fun p => p.id_ruolo).Nodup) :
    verificaSpec db uid cap := by
  have hbridge : (∃ u ∈ db.utenti, u.id_utente = uid ∧ u.attivo = true ∧
      ∃ p ∈ db.permessi, p.id_ruolo = u.id_ruolo ∧ capField p cap = true) ↔
      ∃ p ∈ righePermesso db uid, capField p cap = true := by
    constructor
    · rintro ⟨u, hu, hid, hact, p, hp, hrole, hcap⟩
      exact ⟨p, (righePermesso_mem db uid p).mpr ⟨u, hu, hid, hact, hp, hrole⟩, hcap⟩
    · rintro ⟨p, hmem, hcap⟩
      obtain ⟨u, hu, hid, hact, hp, hrole⟩ := (righePermesso_mem db uid p).mp hmem
      exact ⟨u, hu, hid, hact, p, hp, hrole, hcap⟩
  have hlen := righePermesso_length_le_one db uid hU hP
  cases h' : righePermesso db uid with
  | nil =>
    refine ⟨false, by simp only [sp_verifica_permesso, h'], ?_, fun _ => rfl, fun _ => rfl⟩
    rw [hbridge, h']
    simp
  | cons p t =>
    have ht : t = [] := by
      rw [h'] at hlen
      simpa using hlen
    subst ht
    have hiff : capField p cap = true ↔
        ∃ u ∈ db.utenti, u.id_utente = uid ∧ u.attivo = true ∧
          ∃ q ∈ db.permessi, q.id_ruolo = u.id_ruolo ∧ capField q cap = true := by
      rw [hbridge, h']
      simp
    refine ⟨capField p cap, by simp only [sp_verifica_permesso, h'], hiff, ?_, ?_⟩
    · intro hcap
      simp only [List.mem_cons, List.not_mem_nil, or_false] at hcap
      push_neg at hcap
      obtain ⟨h1, h2, h3, h4, h5⟩ := hcap
      simp [capField, h1, h2, h3, h4, h5]
    · intro hin
      cases hb : capField p cap with
      | false => rfl
      | true =>
        obtain ⟨u, hu, hid, hact, -⟩ := hiff.mp hb
        rw [hin u hu hid] at hact
        exact Bool.noConfusion hact

/-- Witness for C3 on the seeded data: the manager (user 1) asking for
`gestisci_utenti`. -/
theorem sp_verifica_permesso_spec_witness : verificaSpec seedDB 1 "gestisci_utenti" :=
  sp_verifica_permesso_spec seedDB 1 "gestisci_utenti" (by decide) (by decide)

/-- `find?` commutes with a map that cannot change the predicate's verdict. -/
theorem find?_map_of_id {α : Type} {p : α → Bool} (g : α → α)
    (hg : ∀ s, p (g s) = p s) (l : List α) :
    (l.map g).find? p = (l.find? p).map g := by
  induction l with
  | nil => rfl
  | cons a t ih =>
    simp only [List.map_cons, List.find?]
    rw [hg a]
    cases hpa : p a
    · simpa using ih
    · rfl

/-- `sp_aggiorna_spazio_server` rewrites no document row. -/
theorem sp_aggiorna_documenti (db : DB) (sid : Nat) :
    (sp_aggiorna_spazio_server db sid).documenti = db.documenti := rfl

/-- The non-deleted byte sums are computed from `documenti` only, so
`sp_aggiorna_spazio_server` does not change them. -/
theorem sommaBytes_sp_aggiorna (db : DB) (sid L : Nat) :
    sommaBytesNonEliminati (sp_aggiorna_spazio_server db sid) L =
      sommaBytesNonEliminati db L := rfl

/-- After `sp_aggiorna_spazio_server(sid)`, the stored figure of server `sid`
is exactly the rounded byte sum of its non-deleted documents. -/
theorem usedOf_sp_aggiorna_self (db : DB) (sid : Nat)
    (h : (db.server.any fun s => s.id_server == sid) = true) :
    usedOf (sp_aggiorna_spazio_server db sid) sid =
      some (bytesToCentiGb (sommaBytesNonEliminati db sid)) := by
  have hg : ∀ s : Server,
      (((fun s : Server => if s.id_server == sid then
          { s with spazio_usato_centi := bytesToCentiGb (sommaBytesNonEliminati db sid) }
        else s) s).id_server == sid) = (s.id_server == sid) := by
    intro s
    dsimp only
    split <;> rfl
  simp only [usedOf, sp_aggiorna_spazio_server]
  rw [find?_map_of_id _ hg]
  obtain ⟨s0, hmem, hs0⟩ := List.any_eq_true.mp h
  have hsome : (db.server.find? fun s => s.id_server == sid).isSome :=
    List.find?_isSome.mpr ⟨s0, hmem, hs0⟩
  obtain ⟨s', hfind⟩ := Option.isSome_iff_exists.mp hsome
  have hp' : s'.id_server = sid := by simpa using List.find?_some hfind
  rw [hfind]
  simp [hp']

/-- `sp_aggiorna_spazio_server(sid)` leaves every other server row alone. -/
theorem usedOf_sp_aggiorna_other (db : DB) (sid L : Nat) (h : L ≠ sid) :
    usedOf (sp_aggiorna_spazio_server db sid) L = usedOf db L := by
  have hg : ∀ s : Server,
      (((fun s : Server => if s.id_server == sid then
          { s with spazio_usato_centi := bytesToCentiGb (sommaBytesNonEliminati db sid) }
        else s) s).id_server == L) = (s.id_server == L) := by
    intro s
    dsimp only
    split <;> rfl
  simp only [usedOf, sp_aggiorna_spazio_server]
  rw [find?_map_of_id _ hg]
  cases hfind : db.server.find? fun s => s.id_server == L with
  | none => rfl
  | some s' =>
    have hp' : s'.id_server = L := by simpa using List.find?_some hfind
    have hne : ¬ s'.id_server = sid := by
      rw [hp']
      exact h
    simp [hne]

/-- Which server ids exist is untouched by `sp_aggiorna_spazio_server`. -/
theorem any_server_sp_aggiorna (db : DB) (sid L : Nat) :
    ((sp_aggiorna_spazio_server db sid).server.any fun s => s.id_server == L) =
      (db.server.any fun s => s.id_server == L) := by
  simp only [sp_aggiorna_spazio_server, List.any_map]
  have hcomp : ((fun s : Server => s.id_server == L) ∘ fun s : Server =>
      if s.id_server == sid then
        { s with spazio_usato_centi := bytesToCentiGb (sommaBytesNonEliminati db sid) }
      else s) = fun s : Server => s.id_server == L := by
    funext s
    dsimp only [Function.comp]
    split <;> rfl
  rw [hcomp]

/-- A per-row UPDATE leaves rows with a different primary key unchanged. -/
theorem map_ite_id (l : List Documento) (did : Nat) (g : Documento → Documento)
    (h : ∀ x ∈ l, x.id_documento ≠ did) :
    (l.map fun x => if x.id_documento == did then g x else x) = l := by
  induction l with
  | nil => rfl
  | cons a t ih =>
    have ha : ¬ ((a.id_documento == did) = true) := by
      simpa using h a (List.mem_cons_self _ _)
    simp only [List.map_cons]
    rw [if_neg ha, ih fun x hx => h x (List.mem_cons_of_mem _ hx)]

/-- With unique document ids, updating the row found by the WHERE clause
splits the table into an unchanged prefix, the rewritten row and an
unchanged suffix. -/
theorem update_decomp (l : List Documento) (did : Nat) (d : Documento)
    (g : Documento → Documento)
    (hnd : (l.map fun x => x.id_documento).Nodup)
    (hfind : l.find? (fun x => x.id_documento == did) = some d) :
    ∃ l₁ l₂, l = l₁ ++ d :: l₂ ∧
      (l.map fun x => if x.id_documento == did then g x else x) = l₁ ++ g d :: l₂ ∧
      (∀ x ∈ l₁, x.id_documento ≠ did) ∧ (∀ x ∈ l₂, x.id_documento ≠ did) := by
  have hmem : d ∈ l := List.mem_of_find?_eq_some hfind
  have hdid : d.id_documento = did := by simpa using List.find?_some hfind
  obtain ⟨l₁, l₂, hl⟩ := List.append_of_mem hmem
  subst hl
  rw [List.map_append, List.map_cons, List.nodup_append] at hnd
  obtain ⟨-, h2, hdisj⟩ := hnd
  obtain ⟨hnotin, -⟩ := List.nodup_cons.mp h2
  have hl₁ : ∀ x ∈ l₁, x.id_documento ≠ did := by
    intro x hx hcontra
    refine hdisj (List.mem_map_of_mem _ hx) ?_
    rw [hcontra, ← hdid]
    exact List.mem_cons_self _ _
  have hl₂ : ∀ x ∈ l₂, x.id_documento ≠ did := by
    intro x hx hcontra
    refine hnotin ?_
    rw [hdid, ← hcontra]
    exact List.mem_map_of_mem _ hx
  refine ⟨l₁, l₂, rfl, ?_, hl₁, hl₂⟩
  rw [List.map_append, List.map_cons, map_ite_id l₁ did g hl₁, map_ite_id l₂ did g hl₂,
    if_pos (by simp [hdid])]

/-- The non-deleted byte sum splits over list concatenation. -/
theorem sommaLista_append (a b : List Documento) (sid : Nat) :
    sommaLista (a ++ b) sid = sommaLista a sid + sommaLista b sid := by
  simp [sommaLista, List.filter_append]

/-- The non-deleted byte sum of a cons: the head contributes its size when
it sits on the server and is not soft-deleted. -/
theorem sommaLista_cons (x : Documento) (t : List Documento) (sid : Nat) :
    sommaLista (x :: t) sid =
      (if x.id_server == sid && x.stato != Stato.eliminato then x.dimensione_bytes.getD 0
       else 0) + sommaLista t sid := by
  simp only [sommaLista, List.filter_cons]
  split
  · simp
  · simp

/-- What holds after moving a non-deleted document of `sz` bytes from server
`A` to server `B`: both figures are recalculated to the rounded byte sums,
the exact byte sum of `A` drops by `sz`, that of `B` grows by `sz`, every
other server's sum is untouched, and the exact total over `A` and `B` is
conserved. -/
def movedOk (db db' : DB) (A B sz : Nat) : Prop :=
  usedOf db' A = some (bytesToCentiGb (sommaBytesNonEliminati db' A)) ∧
  usedOf db' B = some (bytesToCentiGb (sommaBytesNonEliminati db' B)) ∧
  sommaBytesNonEliminati db A = sommaBytesNonEliminati db' A + sz ∧
  sommaBytesNonEliminati db' B = sommaBytesNonEliminati db B + sz ∧
  (∀ L, L ≠ A → L ≠ B → sommaBytesNonEliminati db' L = sommaBytesNonEliminati db L) ∧
  sommaBytesNonEliminati db' A + sommaBytesNonEliminati db' B =
    sommaBytesNonEliminati db A + sommaBytesNonEliminati db B

/-- The reassignment `UPDATE documenti SET id_server = B WHERE
id_documento = did` succeeds and satisfies `movedOk`. -/
def mossaOk (db : DB) (did A B sz : Nat) : Prop :=
  ∃ db', updateDocumento db did (fun x => { x with id_server := B }) = Except.ok db' ∧
    movedOk db db' A B sz

/-- C5 amended: moving a non-deleted document from server `A` to a different
existing server `B` fires the update trigger for both, after which each of
the two stored figures equals the `DECIMAL(10,2)`-rounded byte sum of its
own non-deleted documents; the exact byte sums drop/grow by the document's
size and their total over all servers is conserved.  (The stored rounded
figures themselves need not move by the document's exact size, nor preserve
their total — see the rounding counterexample.) -/
theorem move_documento_spazio (db : DB) (did A B : Nat) (d : Documento)
    (hfind : db.documenti.find? (fun x => x.id_documento == did) = some d)
    (hA : d.id_server = A) (hstato : d.stato ≠ Stato.eliminato) (hAB : A ≠ B)
    (hAex : (db.server.any fun s => s.id_server == A) = true)
    (hBex : (db.server.any fun s => s.id_server == B) = true)
    (hnd : (db.documenti.map fun x => x.id_documento).Nodup) :
    mossaOk db did A B (d.dimensione_bytes.getD 0) := by
  subst hA
  obtain ⟨l₁, l₂, hl, hmap, h₁, h₂⟩ :=
    update_decomp db.documenti did d (fun x => { x with id_server := B }) hnd hfind
  set db1 : DB := { db with
    documenti := db.documenti.map fun x =>
      if x.id_documento == did then { x with id_server := B } else x } with hdb1
  have hdocs1 : db1.documenti = l₁ ++ ({ d with id_server := B }) :: l₂ := hmap
  have hguard : fkCambiatiOk db d { d with id_server := B } = true := by
    simp [fkCambiatiOk, hBex]
  have htrig : triggerScatta d { d with id_server := B } = true := by
    have hb : (d.id_server != B) = true := by simpa using hAB
    simp [triggerScatta, hb]
  have hok : updateDocumento db did (fun x => { x with id_server := B }) =
      Except.ok (sp_aggiorna_spazio_server (sp_aggiorna_spazio_server db1 d.id_server) B) := by
    simp only [updateDocumento, hfind]
    rw [if_pos hguard, if_pos htrig]
  have hstatoB : (d.stato != Stato.eliminato) = true := by simpa using hstato
  have hrfl : ∀ L, sommaBytesNonEliminati
      (sp_aggiorna_spazio_server (sp_aggiorna_spazio_server db1 d.id_server) B) L =
      sommaBytesNonEliminati db1 L := by
    intro L
    rw [sommaBytes_sp_aggiorna, sommaBytes_sp_aggiorna]
  have hbr : ∀ L, sommaBytesNonEliminati db1 L = sommaLista db1.documenti L :=
    fun _ => rfl
  have hS : ∀ L, sommaBytesNonEliminati db L =
      sommaLista l₁ L +
        ((if d.id_server == L && d.stato != Stato.eliminato then d.dimensione_bytes.getD 0
          else 0) + sommaLista l₂ L) := by
    intro L
    rw [sommaBytesNonEliminati, hl, sommaLista_append, sommaLista_cons]
  have hS1 : ∀ L, sommaLista db1.documenti L =
      sommaLista l₁ L +
        ((if B == L && d.stato != Stato.eliminato then d.dimensione_bytes.getD 0
          else 0) + sommaLista l₂ L) := by
    intro L
    rw [hdocs1, sommaLista_append, sommaLista_cons]
  have e1 : sommaBytesNonEliminati db d.id_server =
      sommaLista l₁ d.id_server + (d.dimensione_bytes.getD 0 + sommaLista l₂ d.id_server) := by
    rw [hS d.id_server]
    simp [hstatoB]
  have e2 : sommaBytesNonEliminati db B =
      sommaLista l₁ B + (0 + sommaLista l₂ B) := by
    rw [hS B]
    simp [hAB]
  have e3 : ∀ L, L ≠ d.id_server → L ≠ B → sommaBytesNonEliminati db L =
      sommaLista l₁ L + (0 + sommaLista l₂ L) := by
    intro L hL1 _
    rw [hS L]
    simp [Ne.symm hL1]
  have e1' : sommaLista db1.documenti d.id_server =
      sommaLista l₁ d.id_server + (0 + sommaLista l₂ d.id_server) := by
    rw [hS1 d.id_server]
    simp [Ne.symm hAB]
  have e2' : sommaLista db1.documenti B =
      sommaLista l₁ B + (d.dimensione_bytes.getD 0 + sommaLista l₂ B) := by
    rw [hS1 B]
    simp [hstatoB]
  have e3' : ∀ L, L ≠ d.id_server → L ≠ B → sommaLista db1.documenti L =
      sommaLista l₁ L + (0 + sommaLista l₂ L) := by
    intro L _ hL2
    rw [hS1 L]
    simp [Ne.symm hL2]
  refine ⟨_, hok, ?_, ?_, ?_, ?_, ?_, ?_⟩
  · rw [usedOf_sp_aggiorna_other _ B d.id_server hAB,
      usedOf_sp_aggiorna_self db1 d.id_server (by exact hAex), hrfl d.id_server]
  · rw [usedOf_sp_aggiorna_self (sp_aggiorna_spazio_server db1 d.id_server) B
      (by rw [any_server_sp_aggiorna]; exact hBex), hrfl B,
      sommaBytes_sp_aggiorna db1 d.id_server B]
  · rw [hrfl d.id_server, hbr d.id_server, e1, e1']
    omega
  · rw [hrfl B, hbr B, e2, e2']
    omega
  · intro L hL1 hL2
    rw [hrfl L, hbr L, e3 L hL1 hL2, e3' L hL1 hL2]
  · rw [hrfl d.id_server, hrfl B, hbr d.id_server, hbr B, e1, e2, e1', e2']
    omega

/-- Two servers and one active 1 GB document on server 1. -/
def dbC5 : DB :=
  { seedDB with
    server := [⟨1, "Server Principale", 100000, 100⟩, ⟨2, "Server Secondario", 100000, 0⟩],
    documenti := [⟨1, "doc.pdf", some (2 ^ 30), 1, 1, 1, none, Stato.attivo⟩] }

/-- Witness for C5: moving the 1 GB document from server 1 to server 2. -/
theorem move_documento_spazio_witness : mossaOk dbC5 1 1 2 (2 ^ 30) :=
  move_documento_spazio dbC5 1 1 2 ⟨1, "doc.pdf", some (2 ^ 30), 1, 1, 1, none, Stato.attivo⟩
    rfl rfl (by decide) (by decide) rfl rfl (by decide)

/-- Two servers; server 1 holds two active documents of 6,442,451 bytes
each (≈ 0.006 GB each, so their sum rounds to 0.01 GB but each alone also
rounds to 0.01 GB). -/
def dbC5x : DB :=
  { seedDB with
    server := [⟨1, "Server Principale", 100000, 1⟩, ⟨2, "Server Secondario", 100000, 0⟩],
    documenti := [⟨1, "r1.pdf", some 6442451, 1, 1, 1, none, Stato.attivo⟩,
                  ⟨2, "r2.pdf", some 6442451, 1, 1, 1, none, Stato.attivo⟩] }

/-- `dbC5x` after moving document 1 to server 2. -/
def dbC5y : DB :=
  (updateDocumento dbC5x 1 fun x => { x with id_server := 2 }).toOption.getD seedDB

/-- C5 counterexample: on the stored `DECIMAL(10,2)` figures, moving a
6,442,451-byte document from server 1 to server 2 leaves server 1's figure
at 0.01 GB (it did not decrease by the document's ≈ 0.006 GB size) and
raises server 2's from 0 to 0.01 GB, so the total over all locations grows
from 0.01 to 0.02 GB instead of staying unchanged. -/
theorem move_documento_rounding_counterexample :
    (updateDocumento dbC5x 1 fun x => { x with id_server := 2 }).toOption = some dbC5y ∧
    usedOf dbC5x 1 = some 1 ∧ usedOf dbC5x 2 = some 0 ∧
    usedOf dbC5y 1 = some 1 ∧ usedOf dbC5y 2 = some 1 ∧ (1 + 0 : Nat) ≠ 1 + 1 :=
  ⟨rfl, rfl, rfl, rfl, rfl, by decide⟩

end GestioneDocumentale
